import Mathlib

/-!
Shallow embedding of the cursor-capture engine and the session-bound
process lifecycle manager of `src/platform/windows.rs` (rustdesk).

Buffers are lists of bytes (`List Nat`, each entry a byte value).
Rust indexing that can panic (out-of-bounds access on `Vec<u8>`) is
modelled in `Option`: `none` is a panic.  Accesses that the source
guards with explicit bounds checks (`a < bm_size`, `index < c_size`)
are modelled with `List.getD`/`List.set`, which the guard keeps
in-bounds (buffer lengths never change, so the sizes snapshotted at
the top of `fix_cursor_mask` stay equal to the current lengths).

External OS calls (GetIconInfo, GetObjectA, GetBitmapBits, get_di_bits,
handleMask, drawOutline, IPC, session enumeration, process launch) are
modelled as data supplied by an environment structure: the embedding is
the exact control flow and arithmetic of the Rust source on top of those
externally supplied results.
-/

namespace Rustdesk

/-! ## fix_cursor_mask (src/platform/windows.rs lines 332-422) -/

/-- The initial alpha scan (lines 339-347): scans `fuel` pixels starting at
pixel index `i`, reading byte `4*i+3`.  `none` = out-of-bounds panic,
`some true` = a non-zero alpha byte was found (early return `false` in the
source), `some false` = all scanned alpha bytes are zero. -/
def scanAlpha (cbits : List Nat) (i : Nat) : Nat → Option Bool
  | 0 => some false
  | fuel + 1 =>
    match cbits[4 * i + 3]? with
    | none => none
    | some a => if a ≠ 0 then some true else scanAlpha cbits (i + 1) fuel

/-- One row of the pack-and-invert loop (lines 355-363), columns
`x, x+1, ...` for `fuel` steps. -/
def repackRow (bmSize pwb bmw y : Nat) (m : List Nat) (x : Nat) : Nat → List Nat
  | 0 => m
  | fuel + 1 =>
    let a := y * pwb + x
    let b := y * bmw + x
    let m' := if a < bmSize ∧ b < bmSize then m.set a ((m.getD b 0) ^^^ 255) else m
    repackRow bmSize pwb bmw y m' (x + 1) fuel

/-- The pack-and-invert loop over rows `y, y+1, ...` (lines 355-363). -/
def repackRows (bmSize pwb bmw : Nat) (m : List Nat) (y : Nat) : Nat → List Nat
  | 0 => m
  | fuel + 1 => repackRows bmSize pwb bmw (repackRow bmSize pwb bmw y m 0 pwb) (y + 1) fuel

/-- The inner `for b2 in b1..4` zeroing loop (lines 381-386): zero
`cbits[pixIdx+b2]` for `fuel` values of `b2`, each write guarded by
`b2 + pixIdx < cSize`. -/
def zeroTail (cSize pixIdx : Nat) (cb : List Nat) (b2 : Nat) : Nat → List Nat
  | 0 => cb
  | fuel + 1 =>
    let cb' := if pixIdx + b2 < cSize then cb.set (pixIdx + b2) 0 else cb
    zeroTail cSize pixIdx cb' (b2 + 1) fuel

/-- The inner `for b1 in 0..4` scan with break (lines 376-390): find the first
in-bounds non-zero colour byte of the pixel; toggle the mask bit and zero the
rest of the pixel there. -/
def blackenScan (cSize pixIdx maskIdx bitmask : Nat) (m cb : List Nat) (b1 : Nat) :
    Nat → List Nat × List Nat
  | 0 => (m, cb)
  | fuel + 1 =>
    let a := pixIdx + b1
    if a < cSize ∧ cb.getD a 0 ≠ 0 then
      (m.set maskIdx ((m.getD maskIdx 0) ^^^ bitmask), zeroTail cSize pixIdx cb b1 (4 - b1))
    else blackenScan cSize pixIdx maskIdx bitmask m cb (b1 + 1) fuel

/-- One pixel of the "inverted background" fixing loop (lines 371-397). -/
def blackenPix (bmSize cSize pwb width y x bitmask : Nat) (m cb : List Nat) :
    List Nat × List Nat :=
  let maskIdx := y * pwb + (x >>> 3)
  if maskIdx < bmSize then
    let pixIdx := y * (width <<< 2) + (x <<< 2)
    if (m.getD maskIdx 0) &&& bitmask = 0 then
      blackenScan cSize pixIdx maskIdx bitmask m cb 0 4
    else (m, cb)
  else (m, cb)

/-- One row of the "inverted background" loop, threading the rotating
`bitmask` exactly as the source does (`bitmask >>= 1`, reset to `0x80`
at zero). -/
def blackenRow (bmSize cSize pwb width y : Nat) (bitmask : Nat) (m cb : List Nat)
    (x : Nat) : Nat → List Nat × List Nat
  | 0 => (m, cb)
  | fuel + 1 =>
    let p := blackenPix bmSize cSize pwb width y x bitmask m cb
    let bitmask' := if bitmask >>> 1 = 0 then 0x80 else bitmask >>> 1
    blackenRow bmSize cSize pwb width y bitmask' p.1 p.2 (x + 1) fuel

/-- The "inverted background" loop over rows (lines 369-398); `bitmask`
restarts at `0x80` on every row. -/
def blackenRows (bmSize cSize pwb width : Nat) (m cb : List Nat) (y : Nat) :
    Nat → List Nat × List Nat
  | 0 => (m, cb)
  | fuel + 1 =>
    let p := blackenRow bmSize cSize pwb width y 0x80 m cb 0 width
    blackenRows bmSize cSize pwb width p.1 p.2 (y + 1) fuel

/-- The alpha value assigned by the final loop (lines 404-410): 255 by
default, 0 when the (guarded) packed mask bit is clear.  The `u8` shift
`mbits[mask_idx] << (x & 0x7)` is modelled with an explicit `% 256`. -/
def alphaOf (bmSize pwb : Nat) (m : List Nat) (y x : Nat) : Nat :=
  let maskIdx := y * pwb + (x >>> 3)
  if maskIdx < bmSize ∧ (((m.getD maskIdx 0) <<< (x &&& 0x7)) % 256) &&& 0x80 = 0
  then 0 else 255

/-- One pixel of the final swap-and-alpha loop (lines 401-420).  The three
colour reads and the four writes are unguarded in the source; `none` is the
panic on an out-of-bounds access. -/
def swapOne (bmSize pwb width y x : Nat) (m cb : List Nat) : Option (List Nat) :=
  let alpha := alphaOf bmSize pwb m y x
  let p := y * (width <<< 2) + (x <<< 2)
  match (cb[p]?), (cb[p + 1]?), (cb[p + 2]?) with
  | some c0, some b0, some a0 =>
    if p + 3 < cb.length then
      some ((((cb.set p a0).set (p + 1) b0).set (p + 2) c0).set (p + 3) alpha)
    else none
  | _, _, _ => none

/-- One row of the final swap-and-alpha loop. -/
def swapRow (bmSize pwb width y : Nat) (m : List Nat) (cb : List Nat) (x : Nat) :
    Nat → Option (List Nat)
  | 0 => some cb
  | fuel + 1 =>
    match swapOne bmSize pwb width y x m cb with
    | none => none
    | some cb' => swapRow bmSize pwb width y m cb' (x + 1) fuel

/-- The final swap-and-alpha loop over rows (lines 401-420). -/
def swapRows (bmSize pwb width : Nat) (m : List Nat) (cb : List Nat) (y : Nat) :
    Nat → Option (List Nat)
  | 0 => some cb
  | fuel + 1 =>
    match swapRow bmSize pwb width y m cb 0 width with
    | none => none
    | some cb' => swapRows bmSize pwb width m cb' (y + 1) fuel

/-- The first two buffer-rewriting passes of the non-early-exit path of
`fix_cursor_mask` (lines 349-398): the pack-and-invert pass followed by the
"inverted background" blackening pass.  `packed_width_bytes` is
`(width + 7) >> 3`; `bm_size` and `c_size` are the lengths snapshotted at
lines 350-351 (no pass changes a buffer's length). -/
def fixPasses (mbits cbits : List Nat) (width height bm_width_bytes : Nat) :
    List Nat × List Nat :=
  blackenRows mbits.length cbits.length ((width + 7) >>> 3) width
    (repackRows mbits.length ((width + 7) >>> 3) bm_width_bytes mbits 0 height)
    cbits 0 height

/-- `fix_cursor_mask` (lines 332-422).  Result: `none` on a panic,
otherwise `some (mbits', cbits', returned_bool)`. -/
def fix_cursor_mask (mbits cbits : List Nat) (width height bm_width_bytes : Nat) :
    Option (List Nat × List Nat × Bool) :=
  match scanAlpha cbits 0 (height * width) with
  | none => none
  | some true => some (mbits, cbits, false)
  | some false =>
    match swapRows mbits.length ((width + 7) >>> 3) width
        (fixPasses mbits cbits width height bm_width_bytes).1
        (fixPasses mbits cbits width height bm_width_bytes).2 0 height with
    | none => none
    | some c3 => some ((fixPasses mbits cbits width height bm_width_bytes).1, c3, true)

/-! ## get_cursor_data (src/platform/windows.rs lines 138-236) -/

/-- The fields of the Windows `ICONINFO` used by the source:
`is_color` is `!hbmColor.is_null()`. -/
structure IconInfoRec where
  isColor : Bool
  xHotspot : Nat
  yHotspot : Nat
  deriving DecidableEq

/-- The fields of the Windows `BITMAP` structure used by the source. -/
structure BitmapRec where
  bmWidth : Nat
  bmHeight : Nat
  bmWidthBytes : Nat
  bmPlanes : Nat
  bmBitsPixel : Nat
  deriving DecidableEq

/-- The fields of `CursorData` filled in by `get_cursor_data`. -/
structure CursorData where
  id : Nat
  colors : List Nat
  hotx : Nat
  hoty : Nat
  width : Nat
  height : Nat
  deriving DecidableEq

/-- Results of the external OS calls made during one capture.  A buffer the
OS fills in place is modelled by forcing the supplied content to the
allocated length (`forceLen`). -/
structure CaptureEnv where
  /-- `GetIconInfo` result; `none` models failure or a NULL mask handle. -/
  iconInfo : Option IconInfoRec
  /-- `GetObjectA` result on the mask bitmap; `none` models failure. -/
  maskBitmap : Option BitmapRec
  /-- return value `r` of `GetBitmapBits`. -/
  getBitmapBitsRet : Nat
  /-- bytes `GetBitmapBits` wrote into the mask buffer. -/
  mbitsContent : List Nat
  /-- whether `get_rich_cursor_data` (get_di_bits) succeeded. -/
  richOk : Bool
  /-- bytes `get_di_bits` wrote into the colour buffer. -/
  richContent : List Nat
  /-- return value of the native `handleMask`. -/
  handleMaskRet : Int
  /-- bytes `handleMask` wrote into the colour buffer. -/
  monoContent : List Nat
  /-- bytes `drawOutline` wrote into the outline buffer. -/
  outlineContent : List Nat

/-- Force a buffer the OS writes in place to its allocated length `n`
(the allocation is zero-filled by `resize`). -/
def forceLen (n : Nat) (l : List Nat) : List Nat :=
  l.take n ++ List.replicate (n - l.length) 0

/-- `get_bitmap` (lines 217-236): geometry query plus the two format
checks on the mask bitmap. -/
def get_bitmap (bm : Option BitmapRec) : Except String BitmapRec :=
  match bm with
  | none => .error "Failed to get bitmap object"
  | some bm =>
    if bm.bmPlanes ≠ 1 then .error "Unsupported multi-plane cursor"
    else if bm.bmBitsPixel ≠ 1 then .error "Unsupported cursor mask format"
    else .ok bm

/-- Lines 140-186 of `get_cursor_data`: everything before the outline step.
Returns the icon info, the pre-outline width and height, the colour buffer
and the `do_outline` flag. -/
def capture_core (env : CaptureEnv) :
    Except String (IconInfoRec × Nat × Nat × List Nat × Bool) :=
  match env.iconInfo with
  | none => .error "Failed to get icon info"
  | some ii =>
    match get_bitmap env.maskBitmap with
    | .error e => .error e
    | .ok bm_mask =>
      let width := bm_mask.bmWidth
      let height := if ii.isColor then bm_mask.bmHeight else bm_mask.bmHeight / 2
      let cbits_size := width * height * 4
      if cbits_size < 16 then .error "Invalid icon: too small"
      else
        let mlen := bm_mask.bmWidthBytes * bm_mask.bmHeight
        let mbits := forceLen mlen env.mbitsContent
        if env.getBitmapBitsRet = 0 then .error "Failed to copy bitmap data"
        else if env.getBitmapBitsRet ≠ mlen then
          .error "Invalid mask cursor buffer size"
        else if ii.isColor then
          if env.richOk = false then .error "Failed to get di bits"
          else
            let cbits0 := forceLen cbits_size env.richContent
            match fix_cursor_mask mbits cbits0 width height bm_mask.bmWidthBytes with
            | none => .error "index out of bounds"
            | some r => .ok (ii, width, height, r.2.1, r.2.2)
        else
          .ok (ii, width, height, forceLen cbits_size env.monoContent,
               decide (0 < env.handleMaskRet))

/-- Lines 187-212 of `get_cursor_data`: the outline step and the final
`CursorData`. -/
def apply_outline (env : CaptureEnv) (hcursor : Nat)
    (r : IconInfoRec × Nat × Nat × List Nat × Bool) : CursorData :=
  if r.2.2.2.2 then
    { id := hcursor
      colors := forceLen ((r.2.1 + 2) * (r.2.2.1 + 2) * 4) env.outlineContent
      hotx := r.1.xHotspot + 1
      hoty := r.1.yHotspot + 1
      width := r.2.1 + 2
      height := r.2.2.1 + 2 }
  else
    { id := hcursor
      colors := r.2.2.2.1
      hotx := r.1.xHotspot
      hoty := r.1.yHotspot
      width := r.2.1
      height := r.2.2.1 }

/-- `get_cursor_data` (lines 138-214). -/
def get_cursor_data (env : CaptureEnv) (hcursor : Nat) : Except String CursorData :=
  (capture_core env).map (apply_outline env hcursor)

/-! ## run_service lifecycle loop (src/platform/windows.rs lines 513-609)

The loop's mutable state is `session_id`, `h_process` and `stored_usid`.
Everything the loop observes from the outside world in one iteration
(available sessions, the sharing flag, the active session, the accepted
connection and its message, liveness query results, launch results) is an
`IterEnv`.  Externally visible effects are recorded as a trace of
`Action`s. -/

/-- A worker process handle (`HANDLE`): NULL or a live handle. -/
inductive Handle where
  | null
  | proc (id : Nat)
  deriving DecidableEq

/-- The lifecycle loop's mutable state. -/
structure ServiceState where
  session_id : Nat
  h_process : Handle
  stored_usid : Option Nat
  deriving DecidableEq

/-- The IPC control messages the loop dispatches on (`ipc::Data`);
`other` covers every variant the loop ignores (`_ => {}`). -/
inductive IpcData where
  | close
  | sas
  | userSid (u : Option Nat)
  | other
  deriving DecidableEq

/-- External observations made inside the poll-timeout branch
(lines 560-589). -/
structure TimeoutEnv where
  /-- `get_current_session` result (`tmp`). -/
  active : Nat
  /-- whether `GetExitCodeProcess` succeeded with a non-`STILL_ACTIVE` code
  and `CloseHandle` returned TRUE (the second disjunct of line 575-578). -/
  exitedAndClosed : Bool
  /-- `launch_server` result: `none` models `Err` (handle kept),
  `some h` models `Ok(h)`. -/
  launchResult : Option Handle
  deriving DecidableEq

/-- What `timeout(SERVICE_INTERVAL, incoming.next())` produced. -/
inductive LoopEvent where
  /-- a connection was accepted; the payload is the message read within the
  1000 ms read timeout (`none`: no message / read failure). -/
  | conn (d : Option IpcData)
  /-- `Ok(None)` or `Ok(Some(Err(..)))`: ignored (`_ => {}`). -/
  | connNone
  /-- the poll interval elapsed with no connection. -/
  | timeout (t : TimeoutEnv)
  deriving DecidableEq

/-- All external observations of one loop iteration. -/
structure IterEnv where
  /-- session ids from `get_available_sessions` (line 514). -/
  sids : List Nat
  /-- `is_share_rdp()` (line 518). -/
  isShareRdp : Bool
  /-- `get_current_session(share_rdp())` at the top of the loop (line 519). -/
  activeTop : Nat
  /-- `launch_server(..).unwrap_or(NULL)` result at the top (line 522). -/
  topLaunch : Handle
  /-- `launch_server(..).unwrap_or(NULL)` result in the `UserSid` branch
  (line 550). -/
  connLaunch : Handle
  event : LoopEvent
  deriving DecidableEq

/-- Externally visible effects of the loop, in order. -/
inductive Action where
  /-- `launch_server(sid, close_first)` was called. -/
  | launch (sid : Nat) (closeFirst : Bool)
  /-- `send_close_async("")` was called directly (line 571 / line 595). -/
  | sendClose
  /-- `CloseHandle` was called on the worker handle. -/
  | closeHandle
  /-- `send_sas()` was called. -/
  | sendSAS
  /-- the `Stopped` service status was reported (lines 599-607). -/
  | reportStopped
  deriving DecidableEq

/-- Lines 514-524: the check at the top of every iteration.  When the
current session is unavailable or sharing is disabled, switch to the
auto-detected active session (relaunching the worker) if it differs. -/
def topStep (env : IterEnv) (s : ServiceState) : ServiceState × List Action :=
  if s.session_id ∉ env.sids ∨ env.isShareRdp = false then
    if s.session_id ≠ env.activeTop then
      ({ s with session_id := env.activeTop, h_process := env.topLaunch },
       [Action.launch env.activeTop true])
    else (s, [])
  else (s, [])

/-- Lines 560-589: the poll-timeout branch. -/
def timeoutBranch (t : TimeoutEnv) (s : ServiceState) : ServiceState × List Action :=
  if t.active = 0xFFFFFFFF then (s, [])
  else
    let switch : Bool := decide (t.active ≠ s.session_id ∧ s.stored_usid ≠ some s.session_id)
    let s1 := if switch then { s with session_id := t.active } else s
    let tr1 := if switch then [Action.sendClose] else []
    if s1.h_process = Handle.null ∨ t.exitedAndClosed = true then
      let tr2 := if s1.h_process ≠ Handle.null then [Action.closeHandle] else []
      match t.launchResult with
      | some h => ({ s1 with h_process := h },
                   tr1 ++ tr2 ++ [Action.launch s1.session_id (!switch)])
      | none => (s1, tr1 ++ tr2 ++ [Action.launch s1.session_id (!switch)])
    else (s1, tr1)

/-- One full iteration of the `loop` (lines 513-592).  The `Bool` is true
when the iteration executed `break` (a `Close` message). -/
def iterStep (env : IterEnv) (s : ServiceState) : Bool × ServiceState × List Action :=
  let s0 := (topStep env s).1
  let tr0 := (topStep env s).2
  match env.event with
  | .conn (some .close) => (true, s0, tr0)
  | .conn (some .sas) => (false, s0, tr0 ++ [Action.sendSAS])
  | .conn (some (.userSid (some usid))) =>
    if s0.session_id ≠ usid then
      (false,
       { s0 with session_id := usid, stored_usid := some usid, h_process := env.connLaunch },
       tr0 ++ [Action.launch usid true])
    else (false, s0, tr0)
  | .conn (some (.userSid none)) => (false, s0, tr0)
  | .conn (some .other) => (false, s0, tr0)
  | .conn none => (false, s0, tr0)
  | .connNone => (false, s0, tr0)
  | .timeout t =>
    (false, (timeoutBranch t s0).1, tr0 ++ (timeoutBranch t s0).2)

/-- Lines 594-607: after the loop breaks, close the worker (best-effort
notification, then exactly one `CloseHandle`, both only when the handle is
non-null) and report the `Stopped` status. -/
def shutdownActions (s : ServiceState) : List Action :=
  (if s.h_process ≠ Handle.null then [Action.sendClose, Action.closeHandle] else []) ++
    [Action.reportStopped]

/-- Outcome of running the loop on a finite prefix of iteration
environments: `stopped` if `Close` broke out of the loop (shutdown actions
included in the trace), `running` if the prefix was exhausted. -/
inductive LoopOutcome where
  | stopped (s : ServiceState) (tr : List Action)
  | running (s : ServiceState) (tr : List Action)
  deriving DecidableEq

/-- Run the loop over a list of iteration environments.  After a `Close`,
the remaining environments are not consumed (no further iterations run). -/
def runLoop : List IterEnv → ServiceState → LoopOutcome
  | [], s => .running s []
  | env :: rest, s =>
    if (iterStep env s).1 then
      .stopped (iterStep env s).2.1
        ((iterStep env s).2.2 ++ shutdownActions (iterStep env s).2.1)
    else
      match runLoop rest (iterStep env s).2.1 with
      | .stopped s'' tr' => .stopped s'' ((iterStep env s).2.2 ++ tr')
      | .running s'' tr' => .running s'' ((iterStep env s).2.2 ++ tr')

/-- The state an outcome carries. -/
def LoopOutcome.st : LoopOutcome → ServiceState
  | .stopped s _ => s
  | .running s _ => s

/-- The trace an outcome carries. -/
def LoopOutcome.trace : LoopOutcome → List Action
  | .stopped _ tr => tr
  | .running _ tr => tr

/-- Whether the loop terminated via `Close`. -/
def LoopOutcome.isStopped : LoopOutcome → Bool
  | .stopped _ _ => true
  | .running _ _ => false

/-! ## Concrete capture environments and loop inputs for evaluating the
theorems on closed inputs. -/

/-- A monochrome 2x4-mask capture whose `handleMask` reports an outline. -/
def envC3 : CaptureEnv :=
  { iconInfo := some ⟨false, 3, 5⟩, maskBitmap := some ⟨2, 4, 1, 1, 1⟩,
    getBitmapBitsRet := 4, mbitsContent := [0, 0, 0, 0], richOk := true,
    richContent := [], handleMaskRet := 1, monoContent := [], outlineContent := [] }

/-- A monochrome capture with no outline. -/
def envC4 : CaptureEnv :=
  { iconInfo := some ⟨false, 3, 5⟩, maskBitmap := some ⟨2, 4, 1, 1, 1⟩,
    getBitmapBitsRet := 4, mbitsContent := [0, 0, 0, 0], richOk := true,
    richContent := [], handleMaskRet := 0, monoContent := [1, 2], outlineContent := [] }

/-- A well-formed monochrome capture (one plane, 1-bit mask). -/
def envC5 : CaptureEnv :=
  { iconInfo := some ⟨false, 3, 5⟩, maskBitmap := some ⟨2, 4, 1, 1, 1⟩,
    getBitmapBitsRet := 4, mbitsContent := [0, 0, 0, 0], richOk := true,
    richContent := [], handleMaskRet := 0, monoContent := [], outlineContent := [] }

/-- A monochrome capture that synthesizes an outline (8-wide mask). -/
def envC5x : CaptureEnv :=
  { iconInfo := some ⟨false, 3, 5⟩, maskBitmap := some ⟨2, 4, 1, 1, 1⟩,
    getBitmapBitsRet := 4, mbitsContent := [0, 0, 0, 0], richOk := true,
    richContent := [], handleMaskRet := 1, monoContent := [], outlineContent := [] }

/-- A degenerate 1x2 cursor (colour buffer would be 4 bytes), with a
`GetBitmapBits` return of 0 that would otherwise fail with a different
error. -/
def envC6 : CaptureEnv :=
  { iconInfo := some ⟨false, 0, 0⟩, maskBitmap := some ⟨1, 2, 1, 1, 1⟩,
    getBitmapBitsRet := 0, mbitsContent := [], richOk := false,
    richContent := [], handleMaskRet := 0, monoContent := [], outlineContent := [] }

/-- An iteration carrying an `OverrideSession(2)` message while serving
session 1, with sessions 1 and 2 available. -/
def envC7o : IterEnv :=
  { sids := [1, 2], isShareRdp := true, activeTop := 1, topLaunch := .null,
    connLaunch := .proc 9, event := .conn (some (.userSid (some 2))) }

/-- A later poll-timeout iteration whose auto-detected active session is
still 1 while session 2 stays available. -/
def envC7t : IterEnv :=
  { sids := [1, 2], isShareRdp := true, activeTop := 1, topLaunch := .null,
    connLaunch := .null,
    event := .timeout { active := 1, exitedAndClosed := false, launchResult := some (.proc 3) } }

/-- An iteration that receives a `Close` control message. -/
def envC8 : IterEnv :=
  { sids := [1], isShareRdp := true, activeTop := 1, topLaunch := .null,
    connLaunch := .null, event := .conn (some .close) }

/-- The timeout observation with the invalid-session sentinel. -/
def tC9 : TimeoutEnv :=
  { active := 0xFFFFFFFF, exitedAndClosed := true, launchResult := some (.proc 4) }

/-- An iteration whose poll timeout sees the invalid-session sentinel. -/
def envC9 : IterEnv :=
  { sids := [1], isShareRdp := true, activeTop := 1, topLaunch := .null,
    connLaunch := .null, event := .timeout tC9 }

/-! ## Lemmas about the alpha scan -/

theorem scanAlpha_isSome (cbits : List Nat) (fuel i : Nat)
    (h : ∀ j, j < fuel → 4 * (i + j) + 3 < cbits.length) :
    (scanAlpha cbits i fuel).isSome := by
  induction fuel generalizing i with
  | zero => simp [scanAlpha]
  | succ n ih =>
    have h0 : 4 * i + 3 < cbits.length := by
      have := h 0 (Nat.succ_pos n); simpa using this
    rw [scanAlpha, List.getElem?_eq_getElem h0]
    by_cases ha : cbits[4 * i + 3] ≠ 0
    · simp [ha]
    · simp only [ha, if_neg, ite_false]
      exact ih (i + 1) fun j hj => by
        have := h (j + 1) (Nat.succ_lt_succ hj)
        omega

theorem scanAlpha_eq_false (cbits : List Nat) (fuel i : Nat)
    (h : scanAlpha cbits i fuel = some false) :
    ∀ j, j < fuel → cbits[4 * (i + j) + 3]? = some 0 := by
  induction fuel generalizing i with
  | zero => intro j hj; omega
  | succ n ih =>
    intro j hj
    rw [scanAlpha] at h
    match he : cbits[4 * i + 3]? with
    | none => simp only [he] at h; exact absurd h (by simp)
    | some a =>
      simp only [he] at h
      by_cases ha : a ≠ 0
      · rw [if_pos ha] at h; exact absurd h (by simp)
      · rw [if_neg ha] at h
        push_neg at ha; subst ha
        match j with
        | 0 => simpa using he
        | j + 1 =>
          have := ih (i + 1) h j (by omega)
          have harr : 4 * (i + 1 + j) + 3 = 4 * (i + (j + 1)) + 3 := by omega
          rwa [harr] at this

theorem scanAlpha_eq_false_of (cbits : List Nat) (fuel i : Nat)
    (h : ∀ j, j < fuel → cbits[4 * (i + j) + 3]? = some 0) :
    scanAlpha cbits i fuel = some false := by
  induction fuel generalizing i with
  | zero => simp [scanAlpha]
  | succ n ih =>
    have h0 : cbits[4 * i + 3]? = some 0 := by simpa using h 0 (Nat.succ_pos n)
    rw [scanAlpha, h0]
    simp only [ne_eq, not_true_eq_false, ite_false, if_neg]
    exact ih (i + 1) fun j hj => by
      have := h (j + 1) (Nat.succ_lt_succ hj)
      have harr : 4 * (i + (j + 1)) + 3 = 4 * (i + 1 + j) + 3 := by omega
      rwa [harr] at this

/-! ## Length preservation -/

theorem repackRow_length (bmSize pwb bmw y : Nat) (m : List Nat) (x fuel : Nat) :
    (repackRow bmSize pwb bmw y m x fuel).length = m.length := by
  induction fuel generalizing m x with
  | zero => rfl
  | succ n ih =>
    rw [repackRow, ih]
    split <;> simp

theorem repackRows_length (bmSize pwb bmw : Nat) (m : List Nat) (y fuel : Nat) :
    (repackRows bmSize pwb bmw m y fuel).length = m.length := by
  induction fuel generalizing m y with
  | zero => rfl
  | succ n ih => rw [repackRows, ih, repackRow_length]

theorem zeroTail_length (cSize pixIdx : Nat) (cb : List Nat) (b2 fuel : Nat) :
    (zeroTail cSize pixIdx cb b2 fuel).length = cb.length := by
  induction fuel generalizing cb b2 with
  | zero => rfl
  | succ n ih =>
    rw [zeroTail, ih]
    split <;> simp

theorem blackenScan_length (cSize pixIdx maskIdx bitmask : Nat) (m cb : List Nat)
    (b1 fuel : Nat) :
    (blackenScan cSize pixIdx maskIdx bitmask m cb b1 fuel).1.length = m.length ∧
    (blackenScan cSize pixIdx maskIdx bitmask m cb b1 fuel).2.length = cb.length := by
  induction fuel generalizing b1 with
  | zero => exact ⟨rfl, rfl⟩
  | succ n ih =>
    rw [blackenScan]
    split
    · simp [zeroTail_length]
    · exact ih (b1 + 1)

theorem blackenPix_length (bmSize cSize pwb width y x bitmask : Nat) (m cb : List Nat) :
    (blackenPix bmSize cSize pwb width y x bitmask m cb).1.length = m.length ∧
    (blackenPix bmSize cSize pwb width y x bitmask m cb).2.length = cb.length := by
  rw [blackenPix]
  split
  · split
    · exact blackenScan_length _ _ _ _ _ _ _ _
    · exact ⟨rfl, rfl⟩
  · exact ⟨rfl, rfl⟩

theorem blackenRow_length (bmSize cSize pwb width y bitmask : Nat) (m cb : List Nat)
    (x fuel : Nat) :
    (blackenRow bmSize cSize pwb width y bitmask m cb x fuel).1.length = m.length ∧
    (blackenRow bmSize cSize pwb width y bitmask m cb x fuel).2.length = cb.length := by
  induction fuel generalizing bitmask m cb x with
  | zero => exact ⟨rfl, rfl⟩
  | succ n ih =>
    rw [blackenRow]
    have hp := blackenPix_length bmSize cSize pwb width y x bitmask m cb
    have h2 := ih (if bitmask >>> 1 = 0 then 0x80 else bitmask >>> 1)
      (blackenPix bmSize cSize pwb width y x bitmask m cb).1
      (blackenPix bmSize cSize pwb width y x bitmask m cb).2 (x + 1)
    exact ⟨h2.1.trans hp.1, h2.2.trans hp.2⟩

/-! ## Characterization of the final swap-and-alpha loop -/

/-- What one pixel of the final loop does: colour bytes 0 and 2 swapped,
byte 1 kept, alpha byte set from the packed mask bit — all relative to the
buffer `cbOld` the loop started from. -/
def swapPixelSpec (bmSize pwb width y x : Nat) (m cbOld cbNew : List Nat) : Prop :=
  cbNew[4 * (y * width + x)]? = cbOld[4 * (y * width + x) + 2]? ∧
  cbNew[4 * (y * width + x) + 1]? = cbOld[4 * (y * width + x) + 1]? ∧
  cbNew[4 * (y * width + x) + 2]? = cbOld[4 * (y * width + x)]? ∧
  cbNew[4 * (y * width + x) + 3]? = some (alphaOf bmSize pwb m y x)

theorem swapOne_spec (bmSize pwb width y x : Nat) (m cb : List Nat)
    (hp : 4 * (y * width + x) + 3 < cb.length) :
    ∃ cb', swapOne bmSize pwb width y x m cb = some cb' ∧
      cb'.length = cb.length ∧
      (∀ j, j < 4 * (y * width + x) ∨ 4 * (y * width + x) + 3 < j → cb'[j]? = cb[j]?) ∧
      swapPixelSpec bmSize pwb width y x m cb cb' := by
  have hsh : y * (width <<< 2) + (x <<< 2) = 4 * (y * width + x) := by
    simp only [Nat.shiftLeft_eq]
    ring
  have h0 : 4 * (y * width + x) < cb.length := by omega
  have h1 : 4 * (y * width + x) + 1 < cb.length := by omega
  have h2 : 4 * (y * width + x) + 2 < cb.length := by omega
  refine ⟨(((cb.set (4 * (y * width + x)) cb[4 * (y * width + x) + 2]).set
      (4 * (y * width + x) + 1) cb[4 * (y * width + x) + 1]).set
      (4 * (y * width + x) + 2) cb[4 * (y * width + x)]).set
      (4 * (y * width + x) + 3) (alphaOf bmSize pwb m y x), ?_, ?_, ?_, ?_, ?_, ?_, ?_⟩
  · rw [swapOne]
    simp only [hsh, List.getElem?_eq_getElem h0, List.getElem?_eq_getElem h1,
      List.getElem?_eq_getElem h2]
    rw [if_pos hp]
  · simp [List.length_set]
  · intro j hj
    rw [List.getElem?_set_ne (by omega), List.getElem?_set_ne (by omega),
      List.getElem?_set_ne (by omega), List.getElem?_set_ne (by omega)]
  · rw [List.getElem?_set_ne (by omega), List.getElem?_set_ne (by omega),
      List.getElem?_set_ne (by omega),
      List.getElem?_set_self (by simpa using h0), List.getElem?_eq_getElem h2]
  · rw [List.getElem?_set_ne (by omega), List.getElem?_set_ne (by omega),
      List.getElem?_set_self (by simpa using h1), List.getElem?_eq_getElem h1]
  · rw [List.getElem?_set_ne (by omega),
      List.getElem?_set_self (by simpa using h2), List.getElem?_eq_getElem h0]
  · rw [List.getElem?_set_self (by simpa using hp)]

theorem swapRow_spec (bmSize pwb width y : Nat) (m : List Nat) (fuel : Nat) :
    ∀ (x : Nat) (cb : List Nat), 4 * (y * width + x + fuel) ≤ cb.length →
    ∃ cb', swapRow bmSize pwb width y m cb x fuel = some cb' ∧
      cb'.length = cb.length ∧
      (∀ j, j < 4 * (y * width + x) ∨ 4 * (y * width + x + fuel) ≤ j → cb'[j]? = cb[j]?) ∧
      (∀ t, t < fuel → swapPixelSpec bmSize pwb width y (x + t) m cb cb') := by
  induction fuel with
  | zero =>
    intro x cb _
    exact ⟨cb, rfl, rfl, fun j _ => rfl, fun t ht => absurd ht (by omega)⟩
  | succ n ih =>
    intro x cb hb
    have hp : 4 * (y * width + x) + 3 < cb.length := by omega
    obtain ⟨cb1, he1, hlen1, hout1, hpix1⟩ := swapOne_spec bmSize pwb width y x m cb hp
    obtain ⟨cb', he2, hlen2, hout2, hpix2⟩ := ih (x + 1) cb1 (by rw [hlen1]; omega)
    refine ⟨cb', ?_, hlen2.trans hlen1, ?_, ?_⟩
    · rw [swapRow, he1]
      exact he2
    · intro j hj
      rw [hout2 j (by omega), hout1 j (by omega)]
    · intro t ht
      match t with
      | 0 =>
        obtain ⟨q0, q1, q2, q3⟩ := hpix1
        refine ⟨?_, ?_, ?_, ?_⟩ <;>
          rw [hout2 _ (Or.inl (by omega))]
        · exact q0
        · exact q1
        · exact q2
        · exact q3
      | k + 1 =>
        obtain ⟨q0, q1, q2, q3⟩ := hpix2 k (by omega)
        have hx : x + 1 + k = x + (k + 1) := by omega
        rw [hx] at q0 q1 q2 q3
        refine ⟨?_, ?_, ?_, ?_⟩
        · rw [q0, hout1 _ (Or.inr (by omega))]
        · rw [q1, hout1 _ (Or.inr (by omega))]
        · rw [q2, hout1 _ (Or.inr (by omega))]
        · exact q3

theorem swapRows_spec (bmSize pwb width : Nat) (m : List Nat) (fuel : Nat) :
    ∀ (y : Nat) (cb : List Nat), 4 * ((y + fuel) * width) ≤ cb.length →
    ∃ cb', swapRows bmSize pwb width m cb y fuel = some cb' ∧
      cb'.length = cb.length ∧
      (∀ j, j < 4 * (y * width) ∨ 4 * ((y + fuel) * width) ≤ j → cb'[j]? = cb[j]?) ∧
      (∀ r t, r < fuel → t < width → swapPixelSpec bmSize pwb width (y + r) t m cb cb') := by
  induction fuel with
  | zero =>
    intro y cb _
    exact ⟨cb, rfl, rfl, fun j _ => rfl, fun r t hr _ => absurd hr (by omega)⟩
  | succ n ih =>
    intro y cb hb
    have e1 : (y + (n + 1)) * width = y * width + n * width + width := by ring
    have e2 : (y + 1 + n) * width = y * width + n * width + width := by ring
    have e3 : (y + 1) * width = y * width + width := by ring
    obtain ⟨cb1, he1, hlen1, hout1, hpix1⟩ :=
      swapRow_spec bmSize pwb width y m width 0 cb (by omega)
    obtain ⟨cb', he2, hlen2, hout2, hpix2⟩ := ih (y + 1) cb1 (by rw [hlen1]; omega)
    refine ⟨cb', ?_, hlen2.trans hlen1, ?_, ?_⟩
    · rw [swapRows, he1]
      exact he2
    · intro j hj
      rw [hout2 j (by omega), hout1 j (by omega)]
    · intro r t hr ht
      match r with
      | 0 =>
        obtain ⟨q0, q1, q2, q3⟩ := hpix1 t ht
        simp only [Nat.zero_add] at q0 q1 q2 q3
        simp only [Nat.add_zero]
        refine ⟨?_, ?_, ?_, ?_⟩
        · rw [hout2 _ (Or.inl (by omega))]
          exact q0
        · rw [hout2 _ (Or.inl (by omega))]
          exact q1
        · rw [hout2 _ (Or.inl (by omega))]
          exact q2
        · rw [hout2 _ (Or.inl (by omega))]
          exact q3
      | k + 1 =>
        have e4 : (y + (k + 1)) * width = y * width + k * width + width := by ring
        obtain ⟨q0, q1, q2, q3⟩ := hpix2 k t (by omega) ht
        have hyy : y + 1 + k = y + (k + 1) := by omega
        rw [hyy] at q0 q1 q2 q3
        refine ⟨?_, ?_, ?_, ?_⟩
        · rw [q0, hout1 _ (Or.inr (by omega))]
        · rw [q1, hout1 _ (Or.inr (by omega))]
        · rw [q2, hout1 _ (Or.inr (by omega))]
        · exact q3

theorem blackenRows_length (bmSize cSize pwb width : Nat) (m cb : List Nat)
    (y fuel : Nat) :
    (blackenRows bmSize cSize pwb width m cb y fuel).1.length = m.length ∧
    (blackenRows bmSize cSize pwb width m cb y fuel).2.length = cb.length := by
  induction fuel generalizing m cb y with
  | zero => exact ⟨rfl, rfl⟩
  | succ n ih =>
    rw [blackenRows]
    have hr := blackenRow_length bmSize cSize pwb width y 0x80 m cb 0 width
    have := ih (blackenRow bmSize cSize pwb width y 0x80 m cb 0 width).1
      (blackenRow bmSize cSize pwb width y 0x80 m cb 0 width).2 (y + 1)
    exact ⟨this.1.trans hr.1, this.2.trans hr.2⟩

theorem swapOne_length (bmSize pwb width y x : Nat) (m cb cb' : List Nat)
    (h : swapOne bmSize pwb width y x m cb = some cb') : cb'.length = cb.length := by
  rw [swapOne] at h
  split at h
  · split at h
    · injection h with h
      subst h
      simp [List.length_set]
    · exact absurd h (by simp)
  · exact absurd h (by simp)

theorem swapRow_length (bmSize pwb width y : Nat) (m : List Nat) (fuel : Nat) :
    ∀ (x : Nat) (cb cb' : List Nat),
      swapRow bmSize pwb width y m cb x fuel = some cb' → cb'.length = cb.length := by
  induction fuel with
  | zero =>
    intro x cb cb' h
    rw [swapRow] at h
    injection h with h
    subst h; rfl
  | succ n ih =>
    intro x cb cb' h
    rw [swapRow] at h
    split at h
    · exact absurd h (by simp)
    · rename_i cb1 he1
      exact (ih (x + 1) cb1 cb' h).trans (swapOne_length bmSize pwb width y x m cb cb1 he1)

theorem swapRows_length (bmSize pwb width : Nat) (m : List Nat) (fuel : Nat) :
    ∀ (y : Nat) (cb cb' : List Nat),
      swapRows bmSize pwb width m cb y fuel = some cb' → cb'.length = cb.length := by
  induction fuel with
  | zero =>
    intro y cb cb' h
    rw [swapRows] at h
    injection h with h
    subst h; rfl
  | succ n ih =>
    intro y cb cb' h
    rw [swapRows] at h
    split at h
    · exact absurd h (by simp)
    · rename_i cb1 he1
      exact (ih (y + 1) cb1 cb' h).trans (swapRow_length bmSize pwb width y m width 0 cb cb1 he1)

/-- `fix_cursor_mask` never changes the length of the colour buffer. -/
theorem fix_cursor_mask_colors_length (mbits cbits : List Nat) (width height bmw : Nat)
    (m' cb' : List Nat) (b : Bool)
    (h : fix_cursor_mask mbits cbits width height bmw = some (m', cb', b)) :
    cb'.length = cbits.length := by
  rw [fix_cursor_mask] at h
  split at h
  · exact absurd h (by simp)
  · injection h with h
    simp only [Prod.mk.injEq] at h
    obtain ⟨-, h2, -⟩ := h
    rw [← h2]
  · split at h
    · exact absurd h (by simp)
    · rename_i c3 he
      injection h with h
      simp only [Prod.mk.injEq] at h
      obtain ⟨-, h2, -⟩ := h
      rw [← h2]
      exact (swapRows_length _ _ _ _ _ _ _ _ he).trans
        (blackenRows_length mbits.length cbits.length ((width + 7) >>> 3) width _ cbits 0 height).2

/-- The alpha byte written by the final loop is always exactly 0 or 255. -/
theorem alphaOf_cases (bmSize pwb : Nat) (m : List Nat) (y x : Nat) :
    alphaOf bmSize pwb m y x = 0 ∨ alphaOf bmSize pwb m y x = 255 := by
  rw [alphaOf]
  split
  · exact Or.inl rfl
  · exact Or.inr rfl

/-! ## Claim theorems about fix_cursor_mask -/

/-- C1.  If the colour buffer has the length a capture gives it
(`width*height*4`) and some pixel's alpha byte (index `4*i+3`) is non-zero,
then `fix_cursor_mask` returns `false` and leaves both buffers exactly as
they were: no repacking, inversion, channel swap or alpha edit happens. -/
theorem fix_cursor_mask_early_exit (mbits cbits : List Nat) (width height bmw i a : Nat)
    (hlen : cbits.length = width * height * 4)
    (hi : i < height * width)
    (ha : cbits[4 * i + 3]? = some a) (ha0 : a ≠ 0) :
    fix_cursor_mask mbits cbits width height bmw = some (mbits, cbits, false) := by
  have hcomm : width * height = height * width := Nat.mul_comm width height
  have hsome := scanAlpha_isSome cbits (height * width) 0 (fun j hj => by omega)
  have hscan : scanAlpha cbits 0 (height * width) = some true := by
    cases hb : scanAlpha cbits 0 (height * width) with
    | none => rw [hb] at hsome; exact absurd hsome (by simp)
    | some b =>
      cases b
      · have h0 := scanAlpha_eq_false cbits (height * width) 0 hb i hi
        simp only [Nat.zero_add] at h0
        rw [ha] at h0
        injection h0 with h0
        exact absurd h0 ha0
      · rfl
  rw [fix_cursor_mask, hscan]

/-- C2 (amended).  If the colour buffer has capture length and every
pixel's alpha byte is zero, `fix_cursor_mask` runs all three passes and
returns `true`; in the output every pixel's alpha byte is exactly 0 or 255
and its colour bytes 0 and 2 are swapped (byte 1 kept) **relative to the
buffer produced by the inverted-background blackening pass**
(`fixPasses`), not relative to the raw extraction. -/
theorem fix_cursor_mask_all_zero_alpha (mbits cbits : List Nat) (width height bmw : Nat)
    (hlen : cbits.length = width * height * 4)
    (hz : ∀ j, j < height * width → cbits[4 * j + 3]? = some 0) :
    ∃ cb', fix_cursor_mask mbits cbits width height bmw =
        some ((fixPasses mbits cbits width height bmw).1, cb', true) ∧
      ∀ y x, y < height → x < width →
        (cb'[4 * (y * width + x) + 3]? = some 0 ∨
           cb'[4 * (y * width + x) + 3]? = some 255) ∧
        cb'[4 * (y * width + x)]? =
          (fixPasses mbits cbits width height bmw).2[4 * (y * width + x) + 2]? ∧
        cb'[4 * (y * width + x) + 2]? =
          (fixPasses mbits cbits width height bmw).2[4 * (y * width + x)]? ∧
        cb'[4 * (y * width + x) + 1]? =
          (fixPasses mbits cbits width height bmw).2[4 * (y * width + x) + 1]? := by
  have hcomm : width * height = height * width := Nat.mul_comm width height
  have hscan : scanAlpha cbits 0 (height * width) = some false :=
    scanAlpha_eq_false_of cbits (height * width) 0 (fun j hj => by
      have := hz j hj
      simpa using this)
  have hfix2len : (fixPasses mbits cbits width height bmw).2.length = cbits.length :=
    (blackenRows_length mbits.length cbits.length ((width + 7) >>> 3) width _ cbits 0 height).2
  obtain ⟨cb', hsw, hlen', hout, hpix⟩ :=
    swapRows_spec mbits.length ((width + 7) >>> 3) width
      (fixPasses mbits cbits width height bmw).1 height 0
      (fixPasses mbits cbits width height bmw).2 (by
        rw [hfix2len, hlen]
        have : (0 + height) * width = height * width := by ring
        omega)
  refine ⟨cb', ?_, ?_⟩
  · rw [fix_cursor_mask, hscan, hsw]
  · intro y x hy hx
    obtain ⟨q0, q1, q2, q3⟩ := hpix y x hy hx
    simp only [Nat.zero_add] at q0 q1 q2 q3
    refine ⟨?_, q0, q2, q1⟩
    rw [q3]
    rcases alphaOf_cases mbits.length ((width + 7) >>> 3)
        (fixPasses mbits cbits width height bmw).1 y x with h | h
    · exact Or.inl (by rw [h])
    · exact Or.inr (by rw [h])

/-- C10.  Under the capture preconditions (`cbits.length = width*height*4`,
`mbits.length ≥ bm_width_bytes*height`), `fix_cursor_mask` never takes an
out-of-bounds (panic) branch: it always returns `some`. -/
theorem fix_cursor_mask_total (mbits cbits : List Nat) (width height bmw : Nat)
    (hlen : cbits.length = width * height * 4)
    (_hm : bmw * height ≤ mbits.length) :
    (fix_cursor_mask mbits cbits width height bmw).isSome := by
  have hcomm : width * height = height * width := Nat.mul_comm width height
  have hsome := scanAlpha_isSome cbits (height * width) 0 (fun j hj => by omega)
  have hfix2len : (fixPasses mbits cbits width height bmw).2.length = cbits.length :=
    (blackenRows_length mbits.length cbits.length ((width + 7) >>> 3) width _ cbits 0 height).2
  rw [fix_cursor_mask]
  cases hb : scanAlpha cbits 0 (height * width) with
  | none => rw [hb] at hsome; exact absurd hsome (by simp)
  | some b =>
    cases b
    · obtain ⟨cb', hsw, -⟩ :=
        swapRows_spec mbits.length ((width + 7) >>> 3) width
          (fixPasses mbits cbits width height bmw).1 height 0
          (fixPasses mbits cbits width height bmw).2 (by
            rw [hfix2len, hlen]
            have : (0 + height) * width = height * width := by ring
            omega)
      rw [hsw]
      rfl
    · rfl

/-! ## Claim theorems about get_cursor_data -/

theorem forceLen_length (n : Nat) (l : List Nat) : (forceLen n l).length = n := by
  rw [forceLen]
  simp only [List.length_append, List.length_take, List.length_replicate]
  omega

/-- The colour buffer `capture_core` hands to the outline step always has
length `width*height*4` (with the pre-outline width and height). -/
theorem capture_core_colors_length (env : CaptureEnv) (ii : IconInfoRec) (w h : Nat)
    (cb : List Nat) (flag : Bool)
    (hc : capture_core env = .ok (ii, w, h, cb, flag)) : cb.length = w * h * 4 := by
  rw [capture_core] at hc
  cases henv : env.iconInfo with
  | none => rw [henv] at hc; exact absurd hc (by simp)
  | some ii0 =>
    rw [henv] at hc
    cases hgb : get_bitmap env.maskBitmap with
    | error e => rw [hgb] at hc; exact absurd hc (by simp)
    | ok bm =>
      rw [hgb] at hc
      simp only at hc
      cases hcol : ii0.isColor with
      | false =>
        simp only [hcol, Bool.false_eq_true, if_false, ite_false] at hc
        split at hc
        · exact absurd hc (by simp)
        · split at hc
          · exact absurd hc (by simp)
          · split at hc
            · exact absurd hc (by simp)
            · injection hc with hc
              simp only [Prod.mk.injEq] at hc
              obtain ⟨-, hw, hh, hcb, -⟩ := hc
              rw [← hcb, ← hw, ← hh, forceLen_length]
      | true =>
        simp only [hcol, if_true, ite_true] at hc
        split at hc
        · exact absurd hc (by simp)
        · split at hc
          · exact absurd hc (by simp)
          · split at hc
            · exact absurd hc (by simp)
            · split at hc
              · exact absurd hc (by simp)
              · split at hc
                · exact absurd hc (by simp)
                · rename_i r he
                  injection hc with hc
                  simp only [Prod.mk.injEq] at hc
                  obtain ⟨-, hw, hh, hcb, -⟩ := hc
                  rw [← hcb, ← hw, ← hh]
                  rw [fix_cursor_mask_colors_length _ _ _ _ _ r.1 r.2.1 r.2.2 (by rw [he]),
                    forceLen_length]

/-- C4.  Every successful capture returns a pixel buffer whose length is
`width*height*4` for the returned (post-outline, if any) width and height. -/
theorem get_cursor_data_colors_length (env : CaptureEnv) (hcursor : Nat)
    (cd : CursorData) (h : get_cursor_data env hcursor = .ok cd) :
    cd.colors.length = cd.width * cd.height * 4 := by
  rw [get_cursor_data] at h
  cases hc : capture_core env with
  | error e => rw [hc] at h; exact absurd h (by simp [Except.map])
  | ok r =>
    rw [hc] at h
    simp only [Except.map] at h
    injection h with h
    rw [← h, apply_outline]
    split
    · simp only [forceLen_length]
    · exact capture_core_colors_length env r.1 r.2.1 r.2.2.1 r.2.2.2.1 r.2.2.2.2 (by rw [hc])

/-- C3.  If the `do_outline` flag is set, the returned snapshot's width and
height are the pre-outline values plus 2 and both hotspot coordinates are
the icon's hotspot coordinates plus 1; if the flag is not set, width,
height and hotspot are returned unchanged. -/
theorem get_cursor_data_outline_geometry (env : CaptureEnv) (hcursor : Nat)
    (ii : IconInfoRec) (w h : Nat) (cb : List Nat) (flag : Bool) (cd : CursorData)
    (hc : capture_core env = .ok (ii, w, h, cb, flag))
    (hg : get_cursor_data env hcursor = .ok cd) :
    (flag = true → cd.width = w + 2 ∧ cd.height = h + 2 ∧
       cd.hotx = ii.xHotspot + 1 ∧ cd.hoty = ii.yHotspot + 1) ∧
    (flag = false → cd.width = w ∧ cd.height = h ∧
       cd.hotx = ii.xHotspot ∧ cd.hoty = ii.yHotspot) := by
  rw [get_cursor_data, hc] at hg
  simp only [Except.map] at hg
  injection hg with hg
  rw [← hg, apply_outline]
  cases flag
  · simp
  · simp

/-- C5 (amended).  A mask bitmap with more than one bit-plane or a bit
depth other than 1 makes the capture fail with one of the two
unsupported-format errors; otherwise the **pre-outline** computed width is
the mask bitmap width and the pre-outline height is the mask height (colour
cursor) or half of it (monochrome cursor).  (The returned snapshot itself
carries these values only when no outline is synthesized; outline synthesis
adds 2 to each, which is what forces this amendment.) -/
theorem get_cursor_data_geometry (env : CaptureEnv) (hcursor : Nat)
    (ii : IconInfoRec) (bm : BitmapRec)
    (hii : env.iconInfo = some ii) (hbm : env.maskBitmap = some bm) :
    (1 < bm.bmPlanes ∨ bm.bmBitsPixel ≠ 1 →
      get_cursor_data env hcursor = .error "Unsupported multi-plane cursor" ∨
      get_cursor_data env hcursor = .error "Unsupported cursor mask format") ∧
    (∀ ii' w h cb flag, capture_core env = .ok (ii', w, h, cb, flag) →
      w = bm.bmWidth ∧
      h = (if ii.isColor then bm.bmHeight else bm.bmHeight / 2)) := by
  constructor
  · intro hbad
    rw [get_cursor_data, capture_core, hii, hbm, get_bitmap]
    by_cases hp : bm.bmPlanes ≠ 1
    · rw [if_pos hp]
      exact Or.inl rfl
    · rw [if_neg hp]
      have hb : bm.bmBitsPixel ≠ 1 := by omega
      rw [if_pos hb]
      exact Or.inr rfl
  · intro ii' w h cb flag hc
    rw [capture_core, hii, hbm, get_bitmap] at hc
    by_cases hp : bm.bmPlanes ≠ 1
    · rw [if_pos hp] at hc
      exact absurd hc (by simp)
    · rw [if_neg hp] at hc
      by_cases hb : bm.bmBitsPixel ≠ 1
      · rw [if_pos hb] at hc
        exact absurd hc (by simp)
      · rw [if_neg hb] at hc
        simp only at hc
        cases hcol : ii.isColor with
        | false =>
          simp only [hcol, Bool.false_eq_true, if_false, ite_false] at hc
          split at hc
          · exact absurd hc (by simp)
          · split at hc
            · exact absurd hc (by simp)
            · split at hc
              · exact absurd hc (by simp)
              · injection hc with hc
                simp only [Prod.mk.injEq] at hc
                obtain ⟨-, hw, hh, -, -⟩ := hc
                refine ⟨hw.symm, ?_⟩
                rw [if_neg (by simp), ← hh]
        | true =>
          simp only [hcol, if_true, ite_true] at hc
          split at hc
          · exact absurd hc (by simp)
          · split at hc
            · exact absurd hc (by simp)
            · split at hc
              · exact absurd hc (by simp)
              · split at hc
                · exact absurd hc (by simp)
                · split at hc
                  · exact absurd hc (by simp)
                  · injection hc with hc
                    simp only [Prod.mk.injEq] at hc
                    obtain ⟨-, hw, hh, -, -⟩ := hc
                    refine ⟨hw.symm, ?_⟩
                    rw [if_pos rfl, ← hh]

/-- C6.  Whenever the computed pre-outline geometry satisfies
`width*height*4 < 16`, the capture fails with the invalid-icon error,
regardless of every other value in the environment — in particular
regardless of what reading the mask bits would return, which shows the
failure happens before any mask bits are read or buffers produced. -/
theorem get_cursor_data_too_small (env : CaptureEnv) (hcursor : Nat)
    (ii : IconInfoRec) (bm : BitmapRec)
    (hii : env.iconInfo = some ii) (hbm : env.maskBitmap = some bm)
    (hp : bm.bmPlanes = 1) (hb : bm.bmBitsPixel = 1)
    (hsmall : bm.bmWidth * (if ii.isColor then bm.bmHeight else bm.bmHeight / 2) * 4 < 16) :
    get_cursor_data env hcursor = .error "Invalid icon: too small" := by
  rw [get_cursor_data, capture_core, hii, hbm, get_bitmap]
  rw [if_neg (by omega), if_neg (by omega)]
  simp only
  rw [if_pos hsmall]
  rfl

/-! ## Claim theorems about the lifecycle loop -/

/-- When the current session is still among the available sessions and RDP
sharing is enabled, the top-of-loop check does nothing. -/
theorem topStep_skip (env : IterEnv) (s : ServiceState)
    (hin : s.session_id ∈ env.sids) (hshare : env.isShareRdp = true) :
    topStep env s = (s, []) := by
  rw [topStep, if_neg]
  simp [hin, hshare]

/-- When the override marker equals the current session, the timeout branch
never changes the session, never stores, and never sends a close
notification; any launch it performs targets the current session. -/
theorem timeoutBranch_sticky (t : TimeoutEnv) (s : ServiceState)
    (hst : s.stored_usid = some s.session_id) :
    (timeoutBranch t s).1.session_id = s.session_id ∧
    (timeoutBranch t s).1.stored_usid = s.stored_usid ∧
    ∀ a ∈ (timeoutBranch t s).2,
      (∀ z b, a = Action.launch z b → z = s.session_id) ∧ a ≠ Action.sendClose := by
  rw [timeoutBranch]
  by_cases hA : t.active = 0xFFFFFFFF
  · rw [if_pos hA]
    exact ⟨rfl, rfl, by simp⟩
  · rw [if_neg hA]
    simp only
    have hsw : decide (t.active ≠ s.session_id ∧ s.stored_usid ≠ some s.session_id) = false := by
      simp [hst]
    rw [hsw]
    simp only [Bool.false_eq_true, if_false, ite_false, Bool.not_false]
    split
    · split
      · refine ⟨rfl, rfl, ?_⟩
        intro a ha
        simp only [List.nil_append, List.mem_append, List.mem_singleton] at ha
        rcases ha with ha | ha
        · split at ha
          · simp only [List.mem_singleton] at ha
            subst ha
            refine ⟨?_, by simp⟩
            intro z b hzb
            exact absurd hzb (by simp)
          · simp at ha
        · subst ha
          refine ⟨?_, by simp⟩
          intro z b hzb
          injection hzb with hz hb
          exact hz.symm
      · refine ⟨rfl, rfl, ?_⟩
        intro a ha
        simp only [List.nil_append, List.mem_append, List.mem_singleton] at ha
        rcases ha with ha | ha
        · split at ha
          · simp only [List.mem_singleton] at ha
            subst ha
            refine ⟨?_, by simp⟩
            intro z b hzb
            exact absurd hzb (by simp)
          · simp at ha
        · subst ha
          refine ⟨?_, by simp⟩
          intro z b hzb
          injection hzb with hz hb
          exact hz.symm
    · exact ⟨rfl, rfl, by simp⟩

/-- Running any sequence of poll-timeout iterations in which the overridden
session stays available and sharing stays enabled never moves off the
overridden session, never clears the override marker, never sends a close
notification, and only ever launches workers for the overridden session. -/
theorem runLoop_sticky (sid : Nat) (envs : List IterEnv) :
    ∀ s : ServiceState, s.session_id = sid → s.stored_usid = some sid →
    (∀ e ∈ envs, sid ∈ e.sids ∧ e.isShareRdp = true ∧ ∃ t, e.event = .timeout t) →
    (runLoop envs s).isStopped = false ∧ (runLoop envs s).st.session_id = sid ∧
    (runLoop envs s).st.stored_usid = some sid ∧
    ∀ a ∈ (runLoop envs s).trace,
      (∀ z b, a = Action.launch z b → z = sid) ∧ a ≠ Action.sendClose := by
  induction envs with
  | nil =>
    intro s h1 h2 _
    exact ⟨rfl, h1, h2, by simp [runLoop, LoopOutcome.trace]⟩
  | cons env rest ih =>
    intro s h1 h2 hq
    obtain ⟨hin, hshare, t, hev⟩ := hq env (by simp)
    have hin' : s.session_id ∈ env.sids := by rw [h1]; exact hin
    have hst : s.stored_usid = some s.session_id := by rw [h1, h2]
    obtain ⟨hb1, hb2, hb3⟩ := timeoutBranch_sticky t s hst
    have hstep : iterStep env s =
        (false, (timeoutBranch t s).1, (timeoutBranch t s).2) := by
      rw [iterStep, hev, topStep_skip env s hin' hshare]
      rfl
    obtain ⟨hr1, hr2, hr3, hr4⟩ := ih (timeoutBranch t s).1 (by rw [hb1, h1])
      (by rw [hb2, h2]) (fun e he => hq e (by simp [he]))
    cases hrec : runLoop rest (timeoutBranch t s).1 with
    | stopped s2 tr2 =>
      rw [hrec] at hr1
      exact absurd hr1 (by simp [LoopOutcome.isStopped])
    | running s2 tr2 =>
      rw [hrec] at hr2 hr3 hr4
      have hloop : runLoop (env :: rest) s =
          .running s2 ((timeoutBranch t s).2 ++ tr2) := by
        simp only [runLoop, hstep, hrec]
        rfl
      rw [hloop]
      refine ⟨rfl, hr2, hr3, ?_⟩
      intro a ha
      simp only [LoopOutcome.trace, List.mem_append] at ha
      rcases ha with ha | ha
      · have hb := hb3 a ha
        refine ⟨?_, hb.2⟩
        intro z b hzb
        exact (hb.1 z b hzb).trans h1
      · exact hr4 a ha

/-- C7.  Processing `UserSid(usid)` (the override message) with
`usid ≠ currentSessionId` records the override, switches to `usid` and
relaunches the worker; afterwards, any run of poll-timeout iterations in
which `usid` stays available and sharing stays enabled never reverts to the
auto-detected session: the session stays `usid`, no close notification is
sent, and every relaunch targets `usid`. -/
theorem run_service_override_sticky (s : ServiceState) (env : IterEnv) (usid : Nat)
    (envs : List IterEnv)
    (hin : s.session_id ∈ env.sids) (hshare : env.isShareRdp = true)
    (hev : env.event = .conn (some (.userSid (some usid))))
    (hne : usid ≠ s.session_id)
    (hq : ∀ e ∈ envs, usid ∈ e.sids ∧ e.isShareRdp = true ∧ ∃ t, e.event = .timeout t) :
    iterStep env s =
      (false, ⟨usid, env.connLaunch, some usid⟩, [Action.launch usid true]) ∧
    (runLoop envs ⟨usid, env.connLaunch, some usid⟩).isStopped = false ∧
    (runLoop envs ⟨usid, env.connLaunch, some usid⟩).st.session_id = usid ∧
    (runLoop envs ⟨usid, env.connLaunch, some usid⟩).st.stored_usid = some usid ∧
    ∀ a ∈ (runLoop envs ⟨usid, env.connLaunch, some usid⟩).trace,
      (∀ z b, a = Action.launch z b → z = usid) ∧ a ≠ Action.sendClose := by
  have hfirst : iterStep env s =
      (false, ⟨usid, env.connLaunch, some usid⟩, [Action.launch usid true]) := by
    rw [iterStep, hev, topStep_skip env s hin hshare]
    simp only
    rw [if_pos (fun hh => hne hh.symm)]
    rfl
  obtain ⟨h1, h2, h3, h4⟩ := runLoop_sticky usid envs ⟨usid, env.connLaunch, some usid⟩
    rfl rfl hq
  exact ⟨hfirst, h1, h2, h3, h4⟩

/-- C8.  A `Close` control message makes the loop break immediately: the
remaining input is never consumed (no further iterations), the shutdown
path sends one best-effort close notification and calls `CloseHandle`
exactly once when the worker handle is non-null (zero times when it is
null), and the terminal status report is the last action. -/
theorem run_service_close (env : IterEnv) (rest : List IterEnv) (s : ServiceState)
    (h : env.event = .conn (some .close)) :
    runLoop (env :: rest) s =
      .stopped (topStep env s).1 ((topStep env s).2 ++ shutdownActions (topStep env s).1) ∧
    ((shutdownActions (topStep env s).1).count Action.closeHandle =
      if (topStep env s).1.h_process = Handle.null then 0 else 1) ∧
    ((topStep env s).1.h_process ≠ Handle.null →
      Action.sendClose ∈ shutdownActions (topStep env s).1) ∧
    (shutdownActions (topStep env s).1).getLast? = some Action.reportStopped := by
  refine ⟨?_, ?_, ?_, ?_⟩
  · have hstep : iterStep env s = (true, (topStep env s).1, (topStep env s).2) := by
      rw [iterStep, h]
    simp only [runLoop, hstep, if_true]
  · rw [shutdownActions]
    by_cases hh : (topStep env s).1.h_process = Handle.null
    · rw [if_neg (fun hcon => hcon hh), if_pos hh]
      rfl
    · rw [if_pos hh, if_neg hh]
      rfl
  · intro hh
    rw [shutdownActions, if_pos hh]
    simp
  · rw [shutdownActions]
    by_cases hh : (topStep env s).1.h_process = Handle.null
    · rw [if_neg (fun hcon => hcon hh)]
      rfl
    · rw [if_pos hh]
      rfl

/-- C9.  When the poll-timeout fires and the active-session query returns
the invalid sentinel `0xFFFFFFFF`, the whole timeout branch is skipped for
that iteration: the iteration reduces to the top-of-loop check alone, and
the branch itself leaves the state unchanged and performs no action (no
session change, no close notification, no liveness check or relaunch). -/
theorem run_service_invalid_session_skip (env : IterEnv) (t : TimeoutEnv)
    (s : ServiceState)
    (h1 : env.event = .timeout t) (h2 : t.active = 0xFFFFFFFF) :
    iterStep env s = (false, (topStep env s).1, (topStep env s).2) ∧
    timeoutBranch t (topStep env s).1 = ((topStep env s).1, []) := by
  have hb : timeoutBranch t (topStep env s).1 = ((topStep env s).1, []) := by
    rw [timeoutBranch, if_pos h2]
  refine ⟨?_, hb⟩
  rw [iterStep, h1]
  simp only [hb, List.append_nil]

/-! ## Closed witnesses and counterexamples -/

/-- Witness for C1 at a concrete 2x2 colour cursor whose first pixel has
alpha 9. -/
theorem fix_cursor_mask_early_exit_witness :
    fix_cursor_mask [255, 0, 255, 0]
      [0, 0, 5, 9, 0, 0, 0, 0, 0, 0, 0, 0, 0, 0, 0, 0] 2 2 2 =
      some ([255, 0, 255, 0], [0, 0, 5, 9, 0, 0, 0, 0, 0, 0, 0, 0, 0, 0, 0, 0], false) :=
  fix_cursor_mask_early_exit [255, 0, 255, 0]
    [0, 0, 5, 9, 0, 0, 0, 0, 0, 0, 0, 0, 0, 0, 0, 0] 2 2 2 0 9
    (by decide) (by decide) (by decide) (by decide)

/-- Counterexample for C2 as frozen: a 2x2 colour cursor with every alpha
byte zero (the claim's premise) whose raw pixel 0 is `[0,0,5,0]`.  The
claim says output byte 0 should be raw byte 2 (= 5) after the swap, but the
blackening pass zeroes the pixel first, so the output byte 0 is 0. -/
theorem fix_cursor_mask_swap_raw_counterexample :
    (∀ j, j < 4 →
      ([0, 0, 5, 0, 0, 0, 0, 0, 0, 0, 0, 0, 0, 0, 0, 0] : List Nat)[4 * j + 3]? = some 0) ∧
    fix_cursor_mask [255, 0, 255, 0]
      [0, 0, 5, 0, 0, 0, 0, 0, 0, 0, 0, 0, 0, 0, 0, 0] 2 2 2 =
      some ([128, 0, 255, 0], [0, 0, 0, 255, 0, 0, 0, 0, 0, 0, 0, 0, 0, 0, 0, 0], true) ∧
    ([0, 0, 5, 0, 0, 0, 0, 0, 0, 0, 0, 0, 0, 0, 0, 0] : List Nat)[2]? = some 5 ∧
    ([0, 0, 0, 255, 0, 0, 0, 0, 0, 0, 0, 0, 0, 0, 0, 0] : List Nat)[0]? ≠
      ([0, 0, 5, 0, 0, 0, 0, 0, 0, 0, 0, 0, 0, 0, 0, 0] : List Nat)[2]? := by
  decide

/-- Witness for the amended C2 at the same 2x2 input. -/
theorem fix_cursor_mask_all_zero_alpha_witness :
    ∃ cb', fix_cursor_mask [255, 0, 255, 0]
        [0, 0, 5, 0, 0, 0, 0, 0, 0, 0, 0, 0, 0, 0, 0, 0] 2 2 2 =
        some ((fixPasses [255, 0, 255, 0]
            [0, 0, 5, 0, 0, 0, 0, 0, 0, 0, 0, 0, 0, 0, 0, 0] 2 2 2).1, cb', true) ∧
      ∀ y x, y < 2 → x < 2 →
        (cb'[4 * (y * 2 + x) + 3]? = some 0 ∨ cb'[4 * (y * 2 + x) + 3]? = some 255) ∧
        cb'[4 * (y * 2 + x)]? =
          (fixPasses [255, 0, 255, 0]
            [0, 0, 5, 0, 0, 0, 0, 0, 0, 0, 0, 0, 0, 0, 0, 0] 2 2 2).2[4 * (y * 2 + x) + 2]? ∧
        cb'[4 * (y * 2 + x) + 2]? =
          (fixPasses [255, 0, 255, 0]
            [0, 0, 5, 0, 0, 0, 0, 0, 0, 0, 0, 0, 0, 0, 0, 0] 2 2 2).2[4 * (y * 2 + x)]? ∧
        cb'[4 * (y * 2 + x) + 1]? =
          (fixPasses [255, 0, 255, 0]
            [0, 0, 5, 0, 0, 0, 0, 0, 0, 0, 0, 0, 0, 0, 0, 0] 2 2 2).2[4 * (y * 2 + x) + 1]? :=
  fix_cursor_mask_all_zero_alpha [255, 0, 255, 0]
    [0, 0, 5, 0, 0, 0, 0, 0, 0, 0, 0, 0, 0, 0, 0, 0] 2 2 2 (by decide) (by decide)

/-- Witness for C3: the outline flag inflates a 2x2 capture to 4x4 and
shifts the hotspot from (3,5) to (4,6); the no-outline implication is
vacuous at this input. -/
theorem get_cursor_data_outline_geometry_witness :
    (true = true →
      (⟨7, List.replicate 64 0, 4, 6, 4, 4⟩ : CursorData).width = 2 + 2 ∧
      (⟨7, List.replicate 64 0, 4, 6, 4, 4⟩ : CursorData).height = 2 + 2 ∧
      (⟨7, List.replicate 64 0, 4, 6, 4, 4⟩ : CursorData).hotx = 3 + 1 ∧
      (⟨7, List.replicate 64 0, 4, 6, 4, 4⟩ : CursorData).hoty = 5 + 1) ∧
    (true = false →
      (⟨7, List.replicate 64 0, 4, 6, 4, 4⟩ : CursorData).width = 2 ∧
      (⟨7, List.replicate 64 0, 4, 6, 4, 4⟩ : CursorData).height = 2 ∧
      (⟨7, List.replicate 64 0, 4, 6, 4, 4⟩ : CursorData).hotx = 3 ∧
      (⟨7, List.replicate 64 0, 4, 6, 4, 4⟩ : CursorData).hoty = 5) :=
  get_cursor_data_outline_geometry envC3 7 ⟨false, 3, 5⟩ 2 2 (List.replicate 16 0) true
    ⟨7, List.replicate 64 0, 4, 6, 4, 4⟩ rfl rfl

/-- Witness for C4 at a concrete successful capture. -/
theorem get_cursor_data_colors_length_witness :
    (forceLen 16 [1, 2]).length = 2 * 2 * 4 :=
  get_cursor_data_colors_length envC4 7 ⟨7, forceLen 16 [1, 2], 3, 5, 2, 2⟩ rfl

/-- Counterexample for C5 as frozen: a well-formed (single-plane, 1-bit)
mask bitmap of width 2 whose capture succeeds with an outline, so the
returned snapshot width is 4, not the mask bitmap width 2. -/
theorem get_cursor_data_geometry_counterexample :
    envC5x.maskBitmap = some ⟨2, 4, 1, 1, 1⟩ ∧
    get_cursor_data envC5x 7 = .ok ⟨7, List.replicate 64 0, 4, 6, 4, 4⟩ ∧
    (⟨7, List.replicate 64 0, 4, 6, 4, 4⟩ : CursorData).width ≠ 2 :=
  ⟨rfl, rfl, by decide⟩

/-- Witness for the amended C5 at a concrete monochrome capture: the mask
is 2 wide and 4 high, so the pre-outline geometry is 2x2. -/
theorem get_cursor_data_geometry_witness :
    ((1 : Nat) < 1 ∨ (1 : Nat) ≠ 1 →
      get_cursor_data envC5 7 = .error "Unsupported multi-plane cursor" ∨
      get_cursor_data envC5 7 = .error "Unsupported cursor mask format") ∧
    (∀ ii' w h cb flag, capture_core envC5 = .ok (ii', w, h, cb, flag) →
      w = 2 ∧ h = 2) :=
  get_cursor_data_geometry envC5 7 ⟨false, 3, 5⟩ ⟨2, 4, 1, 1, 1⟩ rfl rfl

/-- Witness for C6: a 1x2 monochrome mask gives a 4-byte colour buffer;
the capture rejects it as invalid even though `GetBitmapBits` would also
have failed (showing the size check comes first). -/
theorem get_cursor_data_too_small_witness :
    get_cursor_data envC6 9 = .error "Invalid icon: too small" :=
  get_cursor_data_too_small envC6 9 ⟨false, 0, 0⟩ ⟨1, 2, 1, 1, 1⟩ rfl rfl rfl rfl (by decide)

/-- Witness for C7: override to session 2 while serving session 1, then one
timeout iteration whose auto-detected session is still 1. -/
theorem run_service_override_sticky_witness :
    iterStep envC7o ⟨1, Handle.proc 5, none⟩ =
      (false, ⟨2, Handle.proc 9, some 2⟩, [Action.launch 2 true]) ∧
    (runLoop [envC7t] ⟨2, Handle.proc 9, some 2⟩).isStopped = false ∧
    (runLoop [envC7t] ⟨2, Handle.proc 9, some 2⟩).st.session_id = 2 ∧
    (runLoop [envC7t] ⟨2, Handle.proc 9, some 2⟩).st.stored_usid = some 2 ∧
    ∀ a ∈ (runLoop [envC7t] ⟨2, Handle.proc 9, some 2⟩).trace,
      (∀ z b, a = Action.launch z b → z = 2) ∧ a ≠ Action.sendClose :=
  run_service_override_sticky ⟨1, Handle.proc 5, none⟩ envC7o 2 [envC7t]
    (by decide) rfl rfl (by decide)
    (by
      intro e he
      simp only [List.mem_singleton] at he
      subst he
      exact ⟨by decide, rfl, ⟨_, rfl⟩⟩)

/-- Witness for C8: a `Close` received while a worker handle is live. -/
theorem run_service_close_witness :
    runLoop [envC8] ⟨1, Handle.proc 5, none⟩ =
      .stopped (topStep envC8 ⟨1, Handle.proc 5, none⟩).1
        ((topStep envC8 ⟨1, Handle.proc 5, none⟩).2 ++
          shutdownActions (topStep envC8 ⟨1, Handle.proc 5, none⟩).1) ∧
    ((shutdownActions (topStep envC8 ⟨1, Handle.proc 5, none⟩).1).count Action.closeHandle =
      if (topStep envC8 ⟨1, Handle.proc 5, none⟩).1.h_process = Handle.null then 0 else 1) ∧
    ((topStep envC8 ⟨1, Handle.proc 5, none⟩).1.h_process ≠ Handle.null →
      Action.sendClose ∈ shutdownActions (topStep envC8 ⟨1, Handle.proc 5, none⟩).1) ∧
    (shutdownActions (topStep envC8 ⟨1, Handle.proc 5, none⟩).1).getLast? =
      some Action.reportStopped :=
  run_service_close envC8 [] ⟨1, Handle.proc 5, none⟩ rfl

/-- Witness for C9: a timeout iteration that sees the `0xFFFFFFFF`
sentinel. -/
theorem run_service_invalid_session_skip_witness :
    iterStep envC9 ⟨1, Handle.proc 5, none⟩ =
      (false, (topStep envC9 ⟨1, Handle.proc 5, none⟩).1,
       (topStep envC9 ⟨1, Handle.proc 5, none⟩).2) ∧
    timeoutBranch tC9 (topStep envC9 ⟨1, Handle.proc 5, none⟩).1 =
      ((topStep envC9 ⟨1, Handle.proc 5, none⟩).1, []) :=
  run_service_invalid_session_skip envC9 tC9 ⟨1, Handle.proc 5, none⟩ rfl rfl

/-- Witness for C10 at a concrete 2x2 colour cursor. -/
theorem fix_cursor_mask_total_witness :
    (fix_cursor_mask [255, 0]
      [1, 2, 3, 0, 4, 5, 6, 0, 7, 8, 9, 0, 10, 11, 12, 0] 2 2 1).isSome :=
  fix_cursor_mask_total [255, 0]
    [1, 2, 3, 0, 4, 5, 6, 0, 7, 8, 9, 0, 10, 11, 12, 0] 2 2 1 (by decide) (by decide)

end Rustdesk
